import Mathlib

/-!
A verification development for the quasirandom crate: the generic additive-
recurrence generator `Qrng` in `src/lib.rs` and the older fixed-arity
`Qrng` in `quasirandom/src/lib.rs`.

Number model: IEEE-754 binary64 values are modelled as exact rationals.
Every floating-point constant of the source is embedded as the exact value
of its binary64 representation; each table constant lies in (1/2, 1), so it
equals an integer mantissa divided by 2^53.  Rust `f64::fract` is
`x - x.trunc()`, which on the non-negative inputs arising here agrees with
`x - floor x`; we use the latter, and it is exact in binary64 (for
`x ∈ [1, 2)` the subtraction is exact by Sterbenz).

Two arithmetic models are used.  The shape/range/branch properties use
exact rational sums and products (`State.gen`, `Qrng.new`): for those
properties the rounding of the source's f64 sums is immaterial, since
`fract` lands in `[0, 1)` under rounded arithmetic just as well and the
branch conditions and seeding/update formulas are the code's own
expressions.  The cross-crate bit-exactness analysis of the legacy surface,
by contrast, is sensitive to rounding at the ulp level, so it uses an
explicit binary64 rounding function `fl64` (round to nearest, ties to
even) on every sum and product the source rounds (`Legacy.next`,
`State.genIEEE`).
-/

/-- Rust `f64::fract` on non-negative values: `x - ⌊x⌋`. -/
def fract (x : ℚ) : ℚ := Int.fract x

/-- The exact rational value of a binary64 number in (1/2, 1) with integer
mantissa `m`: the double is exactly `m / 2^53`. -/
def dy (m : ℕ) : ℚ := (m : ℚ) / 2 ^ 53

/-- The `CONSTANTS` table of `src/lib.rs`: row `d-1` holds the `d` additive
constants for dimensionality `d` (the trailing NAN padding of the source
array is never read and is not modelled; each row here is the meaningful
length-`d` head of the source row).  Every entry is the exact binary64
value of the corresponding source literal. -/
def CONSTANTS : List (List ℚ) := [
  [dy 5566755282872661],
  [dy 6799333552837843, dy 5132665044399074],
  [dy 7378450052166264, dy 6044223474201120, dy 4951261734889446],
  [dy 7716241375409626, dy 6610310184072369, dy 5662886709182450, dy 4851252813870097],
  [dy 7937787652450415, dy 6995345726611898, dy 6164798553123430, dy 5432861031587616, dy 4787825382159295],
  [dy 8094353050659470, dy 7274020420302591, dy 6536825456441915, dy 5874342465237335, dy 5278999665637973, dy 4743992648491240],
  [dy 8210893966911172, dy 7484988155488180, dy 6823257968446792, dy 6220029789871612, dy 5670131594877568, dy 5168848605127412, dy 4711882864740546],
  [dy 8301028704977069, dy 7650222406769078, dy 7050439765127079, dy 6497680490661535, dy 5988257919392714, dy 5518774424305170, dy 5086098754653103, dy 4687345151879577],
  [dy 8372823366240979, dy 7783126490220717, dy 7234961889560538, dy 6725404451432599, dy 6251735078330429, dy 5811426178436262, dy 5402128177899939, dy 5021656983056279, dy 4667982325676866],
  [dy 8431360999685678, dy 7892336596151481, dy 7387772501886005, dy 6915465638685164, dy 6473353773092827, dy 6059506512070878, dy 5672116874324095, dy 5309493400477727, dy 4970052767658429, dy 4652312876231594],
  [dy 8480004435500722, dy 7983666530776636, dy 7516379473553829, dy 7076442906610919, dy 6662255995285383, dy 6272311602380102, dy 5905190804014849, dy 5559557726467101, dy 5234154685214523, dy 4927797608491162, dy 4639371728704645],
  [dy 8521067454937919, dy 8061172903817380, dy 7626099538454242, dy 7214507722923482, dy 6825130123422513, dy 6456767806019226, dy 6108286545010314, dy 5778613330522937, dy 5466733064606257, dy 5171685435639773, dy 4892561961434450, dy 4628503191922020],
  [dy 8556194376209655, dy 8127772033570593, dy 7720801483118801, dy 7334208599295816, dy 6966973039728524, dy 6618125552219021, dy 6286745416577788, dy 5971958014548383, dy 5672932521409885, dy 5388879713164497, dy 5119049883522782, dy 4862730865188771, dy 4619246150222497],
  [dy 8586585904427003, dy 8185614130307660, dy 7803366720613242, dy 7438969295036337, dy 7091588304611240, dy 6760429124993889, dy 6444734238780814, dy 6143781502709158, dy 5856882495774074, dy 5583380944484841, dy 5322651221657521, dy 5074096915310204, dy 4837149464387195, dy 4611266858191433],
  [dy 8613139310102581, dy 8236319268299305, dy 7875984893195750, dy 7531414946066840, dy 7201919741979525, dy 6886839769331986, dy 6585544369787212, dy 6297430475958763, dy 6021921404322053, dy 5758465700935126, dy 5506536037658464, dy 5265628156664607, dy 5035259861124845, dy 4814970050052832, dy 4604317795373251],
  [dy 8636538602964944, dy 8281131229693059, dy 7940349438125011, dy 7613591362187497, dy 7300279903558500, dy 6999861712434740, dy 6711806210242136, dy 6435604652563328, dy 6170769230627202, dy 5916832209773584, dy 5673345103371466, dy 5439877880731838, dy 5216018207616151, dy 5001370717999100, dy 4795556315799502, dy 4598211505346089],
  [dy 8657314347457516, dy 8321020729195467, dy 7997790445952204, dy 7687116052113104, dy 7388509813802652, dy 7101502943181389, dy 6825644862486603, dy 6560502496661397, dy 6305659593461584, dy 6060716069973060, dy 5825287384513723, dy 5599003932933880, dy 5381510468367382, dy 5172465543522548, dy 4971540974637301, dy 4778421326256990, dy 4592803416026038],
  [dy 8675884412180284, dy 8356756435014303, dy 8049367049670394, dy 7753284471573637, dy 7468092798626498, dy 7193391426998316, dy 6928794488403996, dy 6673930308081488, dy 6428440882706636, dy 6191981377512087, dy 5964219641903825, dy 5744835742894957, dy 5533521515701355, dy 5329980130867896, dy 5133925677317231, dy 4945082760735427, dy 4763186116730315, dy 4587980238219167],
  [dy 8692582386701590, dy 8388954925119787, dy 8095933015642689, dy 7813146211753834, dy 7540237006444309, dy 7276860380242371, dy 7022683365030143, dy 6777384623095992, dy 6540654040890373, dy 6312192336971582, dy 6091710683645771, dy 5878930341822867, dy 5673582308626803, dy 5475406977314534, dy 5284153809073911, dy 5099581016285493, dy 4921455256847848, dy 4749551339179931, dy 4583651937527569],
  [dy 8707677811648184, dy 8418116522909149, dy 8138184177930991, dy 7867560580052226, dy 7605936180290340, dy 7353011723268558, dy 7108497904916811, dy 6872115041555351, dy 6643592749982527, dy 6422669638200772, dy 6209093006427062, dy 6002618558045830, dy 5803010120173734, dy 5610039373516639, dy 5423485591209811, dy 5243135386342613, dy 5068782467878896, dy 4900227404693913, dy 4737277397457834, dy 4579746058104966],
  [dy 8721390847943814, dy 8444651458394471, dy 8176693316132790, dy 7917237782458105, dy 7666015060184283, dy 7422763913088676, dy 7187231394263270, dy 6959172583085552, dy 6738350330535586, dy 6524535012594449, dy 6317504291467624, dy 6117042884385026, dy 5922942339737270, dy 5735000820315366, dy 5553022893428482, dy 5376819327681485, dy 5206206896200962, dy 5041008186105093, dy 4881051414019267, dy 4726170247445576, dy 4576203631800468],
  [dy 8733903090579934, dy 8468899270268806, dy 8211936187764265, dy 7962769871245836, dy 7721163751478554, dy 7486888437203941, dy 7259721497346070, dy 7039447249825906, dy 6825856556783460, dy 6618746626013291, dy 6417920818424848, dy 6223188461344851, dy 6034364667484436, dy 5851270159399197, dy 5673731099275470, dy 5501578923881202, dy 5334650184524776, dy 5172786391869772, dy 5015833865458366, dy 4863643587800484, dy 4716071062890174, dy 4572976179014873],
  [dy 8745365659619233, dy 8491143401783956, dy 8244311224466099, dy 8004654302691173, dy 7771964056311055, dy 7546037968470832, dy 7326679409352686, dy 7113697465043457, dy 6906906771376890, dy 6706127352606006, dy 6511184464765152, dy 6321908443585422, dy 6138134556831078, dy 5959702860928466, dy 5786458061762622, dy 5618249379520457, dy 5454930417462841, dy 5296359034511414, dy 5142397221539219, dy 4992910981257475, dy 4847770211593980, dy 4706848592461628, dy 4570023475818478],
  [dy 8755905336103411, dy 8511622324159271, dy 8274154620014138, dy 8043312081832008, dy 7818909872587589, dy 7600768312066164, dy 7388712732992558, dy 7182573341173975, dy 6982185079544768, dy 6787387496004233, dy 6598024614941636, dy 6413944812345598, dy 6235000694397820, dy 6061048979453958, dy 5891950383317140, dy 5727569507712258, dy 5567774731871749, dy 5412438107146043, dy 5261435254554301, dy 5114645265193408, dy 4971950603425481, dy 4833237012766359, dy 4698393424399759, dy 4567311868243775],
  [dy 8765629272732220, dy 8530538114446261, dy 8301752020062121, dy 8079101889937366, dy 7862423159623730, dy 7651555678234780, dy 7446343590075703, dy 7246635219447741, dy 7052282958542143, dy 6863143158340757, dy 6679076022442620, dy 6499945503738105, dy 6325619203854206, dy 6155968275296686, dy 5990867326216733, dy 5830194327731731, dy 5673830523731672, dy 5521660343104521, dy 5373571314315664, dy 5229453982278314, dy 5089201827453412, dy 4952711187119256, dy 4819881178752639, dy 4690613625464880, dy 4564812983437644],
  [dy 8774628651168985, dy 8548063142423471, dy 8327347673810000, dy 8112331194227564, dy 7902866552793719, dy 7698810398138892, dy 7500023080300978, dy 7306368555153055, dy 7117714291298831, dy 6933931179372095, dy 6754893443678115, dy 6580478556116487, dy 6410567152326557, dy 6245042949997989, dy 6083792669290624, dy 5926705955309124, dy 5773675302579361, dy 5624595981474868, dy 5479365966543005, dy 5337885866681767, dy 5200058857119474, dy 5065790613150775, dy 4934989245583630, dy 4807565237853077, dy 4683431384758756, dy 4562502732784270],
  [dy 8782981550923800, dy 8564345335567473, dy 8351151667754731, dy 8143265065247576, dy 7940553418389812, dy 7742887906152810, dy 7550142914271155, dy 7362195955416163, dy 7178927591356519, dy 7000221357056594, dy 6825963686664197, dy 6656043841340713, dy 6490353838887794, dy 6328788385125843, dy 6171244806980736, dy 6017622987236195, dy 5867825300910397, dy 5721756553216374, dy 5579323919066765, dy 5440436884084495, dy 5305007187081876, dy 5172948763971594, dy 5044177693073923, dy 4918612141785421, dy 4796172314575204, dy 4676780402275761, dy 4560360532636087],
  [dy 8790755221239879, dy 8579512362744812, dy 8373345694422500, dy 8172133234839569, dy 7975755933790505, dy 7784097601859921, dy 7597044841677439, dy 7414486980824524, dy 7236316006353581, dy 7062426500880565, dy 6892715580213283, dy 6727082832478512, dy 6565430258711884, dy 6407662214875407, dy 6253685355268321, dy 6103408577297782, dy 5956742967576727, dy 5813601749317004, dy 5673900230986655, dy 5537555756200973, dy 5404487654817675, dy 5274617195207270, dy 5147867537670375, dy 5024163688974418, dy 4903432457982824, dy 4785602412350443, dy 4670603836259591, dy 4558368689171700],
  [dy 8798007896069963, dy 8593674987101774, dy 8394087690797341, dy 8199135790747233, dy 8008711630307807, dy 7822710053150875, dy 7641028345194120, dy 7463566177880161, dy 7290225552772962, dy 7120910747440981, dy 6955528262597178, dy 6793986770466693, dy 6636197064353681, dy 6482072009379445, dy 6331526494364686, dy 6184477384829264, dy 6040843477083555, dy 5900545453386013, dy 5763505838142208, dy 5629648955121133, dy 5498900885665153, dy 5371189427870528, dy 5246444056715972, dy 5124595885117205, dy 5005577625886027, dy 4889323554572878, dy 4775769473172379, dy 4664852674671812, dy 4556511908422955],
  [dy 8804790255877970, dy 8606929774446620, dy 8413515596558516, dy 8224447805266849, dy 8039628728949756, dy 7858962890853571, dy 7682356959769942, dy 7509719701821315, dy 7340961933329907, dy 7175996474745791, dy 7014738105610307, dy 6857103520531541, dy 6703011286149101, dy 6552381799065993, dy 6405137244725849, dy 6261201557214238, dy 6120500379963356, dy 5982961027339724, dy 5848512447095106, dy 5717085183661210, dy 5588611342269238, dy 5463024553875738, dy 5340259940876635, dy 5220254083591731, dy 5102944987502373, dy 4988272051225343, dy 4876176035206438, dy 4766599031117571, dy 4659484431941569, dy 4554776902729233],
  [dy 8811146613928601, dy 8619361297162503, dy 8431750420947529, dy 8248223123510687, dy 8068690520795927, dy 7893065663416724, dy 7721263494545646, dy 7553200808720505, dy 7388796211547138, dy 7227970080279315, dy 7070644525256668, dy 6916743352181963, dy 6766192025219471, dy 6618917630896531, dy 6474848842790846, dy 6333915886986406, dy 6196050508281297, dy 6061185937131045, dy 5929256857311478, dy 5800199374285440, dy 5673950984258040, dy 5550450543905470, dy 5429638240762684, dy 5311455564255649, dy 5195845277364095, dy 5082751388901081, dy 4972119126395909, dy 4863894909567284, dy 4758026324373869, dy 4654462097629648, dy 4553152072171827],
  [dy 8817115885805501, dy 8631043939968798, dy 8448898762190480, dy 8270597483947219, dy 8096058985531010, dy 7925203859143064, dy 7757954372766535, dy 7594234434801680, dy 7433969559447312, dy 7277086832812853, dy 7123514879745522, dy 6973183831357599, dy 6826025293238963, dy 6681972314340469, dy 6540959356513985, dy 6402922264695253, dy 6267798237715977, dy 6135525799731895, dy 6006044772253815, dy 5879296246768883, dy 5755222557939651, dy 5633767257368735, dy 5514875087917120, dy 5398491958564460, dy 5284564919799890, dy 5173042139532189, dy 5063872879508328, dy 4957007472229659, dy 4852397298355260, dy 4749994764582139, dy 4649753281992256, dy 4551627244856492]
]

/-- `CONSTANTS[N-1]` as read by `State::<N>::gen` (for `1 ≤ d ≤ 32`). -/
def constantsFor (d : ℕ) : List ℚ := CONSTANTS.getD (d - 1) []

/-- `State::<N>::gen`: for each `i < N`,
`self.0[i] = (self.0[i] + CONSTANTS[N-1][i]).fract()`, and the updated
phase array is returned to the caller. -/
def State.gen (n : ℕ) (ps : List ℚ) : List ℚ :=
  List.zipWith (fun p c => fract (p + c)) ps (constantsFor n)

/-- `Qrng::<(T0,...)>::new(seed)` (from the `define_from_uniform` macro):
`assert!(seed >= 0.0); assert!(seed < 1.0);` then
`seeds[i] = (seed * i as f64).fract()`.  A failing assert is modelled as
`none`. -/
def Qrng.new (n : ℕ) (seed : ℚ) : Option (List ℚ) :=
  if 0 ≤ seed ∧ seed < 1 then
    some ((List.range n).map fun i : ℕ => fract (seed * i))
  else none

/-- The phase state after `k` advance steps. -/
def stateAfter (n : ℕ) (ps : List ℚ) (k : ℕ) : List ℚ :=
  (State.gen n)^[k] ps

/-- The raw-coordinate outputs of the first `k` calls of `Qrng::gen`, with
the phase state threaded through explicitly; each call returns the
post-update phase array. -/
def Qrng.run (n : ℕ) (ps : List ℚ) : ℕ → List (List ℚ)
  | 0 => []
  | k + 1 => State.gen n ps :: Qrng.run n (State.gen n ps) k

/-- `impl FromUniform for f64`: the identity mapping. -/
def f64.fromUniform (u : ℚ) : ℚ := u

/-- Rounding of a nonzero rational in the binary32 normal range to the
nearest binary32 value: scale into the 24-bit mantissa window by the base-2
exponent, round to the nearest integer, and scale back.  (The tie-breaking
direction is immaterial for every input this development evaluates; inputs
in [0, 1) never overflow and, being far from 0, never go subnormal.) -/
def roundF32 (q : ℚ) : ℚ :=
  if q = 0 then 0
  else
    (round (q * (2 : ℚ) ^ ((23 : ℤ) - Int.log 2 |q|)) : ℚ) *
      (2 : ℚ) ^ (Int.log 2 |q| - 23)

/-- `impl FromUniform for f32`: `uniform_value as f32`, the narrowing of the
binary64 value to binary32. -/
def f32.fromUniform (u : ℚ) : ℚ := roundF32 u

/-- Round a rational to the nearest integer, ties to even — the IEEE-754
default rounding applied to a value scaled into an integer mantissa
window. -/
def rne (x : ℚ) : ℤ :=
  if Int.fract x < 1 / 2 then ⌊x⌋
  else if 1 / 2 < Int.fract x then ⌊x⌋ + 1
  else if ⌊x⌋ % 2 = 0 then ⌊x⌋ else ⌊x⌋ + 1

/-- IEEE-754 binary64 rounding (round to nearest, ties to even) of a
nonzero rational in the normal range: scale into the 53-bit mantissa
window by the base-2 exponent, round to the nearest integer, and scale
back.  Inputs of interest here lie in (0, 4), far from overflow and
subnormals. -/
def fl64 (q : ℚ) : ℚ :=
  if q = 0 then 0
  else
    (rne (q * (2 : ℚ) ^ ((52 : ℤ) - Int.log 2 |q|)) : ℚ) *
      (2 : ℚ) ^ (Int.log 2 |q| - 52)

/-- `State::<N>::gen` with the source's f64 rounding made explicit: the sum
`self.0[i] + CONSTANTS[N-1][i]` is rounded to binary64 before `fract`
(which is itself exact).  This rounded variant drives the cross-crate
bit-exactness analysis; `State.gen` is the exact-arithmetic idealization
used by the shape and range claims, for which the rounding is immaterial. -/
def State.genIEEE (n : ℕ) (ps : List ℚ) : List ℚ :=
  List.zipWith (fun p c => fract (fl64 (p + c))) ps (constantsFor n)

/-- The phase state after `k` rounded advance steps. -/
def stateAfterIEEE (n : ℕ) (ps : List ℚ) (k : ℕ) : List ℚ :=
  (State.genIEEE n)^[k] ps

/-- Common body of the `unsigned!` macro:
`(::std::$ut::MAX as f64 * uniform_value) as $ut`.  `maxf` is the exact
value of `MAX as f64` (for u64/u128/usize the conversion of `MAX` rounds up
to `2^64`/`2^128`); the `as` cast truncates toward zero and saturates to
`[0, MAX]`. -/
def unsignedFromUniform (maxf : ℚ) (maxv : ℕ) (u : ℚ) : ℕ :=
  min ⌊maxf * u⌋.toNat maxv

/-- `impl FromUniform for u8`. -/
def u8.fromUniform : ℚ → ℕ := unsignedFromUniform 255 255

/-- `impl FromUniform for u16`. -/
def u16.fromUniform : ℚ → ℕ := unsignedFromUniform 65535 65535

/-- `impl FromUniform for u32`. -/
def u32.fromUniform : ℚ → ℕ := unsignedFromUniform 4294967295 4294967295

/-- `impl FromUniform for u64` (`u64::MAX as f64` is exactly `2^64`). -/
def u64.fromUniform : ℚ → ℕ := unsignedFromUniform (2 ^ 64) (2 ^ 64 - 1)

/-- `impl FromUniform for u128` (`u128::MAX as f64` is exactly `2^128`). -/
def u128.fromUniform : ℚ → ℕ := unsignedFromUniform (2 ^ 128) (2 ^ 128 - 1)

/-- `impl FromUniform for usize` (64-bit target: same as u64). -/
def usize.fromUniform : ℚ → ℕ := unsignedFromUniform (2 ^ 64) (2 ^ 64 - 1)

/-- `impl FromUniform for Option<T>`: coordinates below 0.5 delegate to
`Some(T::from_uniform(uniform_value * 2.0))`, the rest yield `None`
(carrying no payload).  `f` is the `T::from_uniform` of the payload type. -/
def optionFromUniform {α : Type} (f : ℚ → α) (u : ℚ) : Option α :=
  if u < 1 / 2 then some (f (u * 2)) else none

/-- Rust 1-tuple `(T,)`. -/
structure Tuple1 (α : Type) where
  fst : α

/-- `impl<T: FromUniform> Qrng<T>::new`: destructures `Qrng::<(T,)>::new(seed)`
and reuses its state unchanged. -/
def scalarQrng.new (seed : ℚ) : Option (List ℚ) := Qrng.new 1 seed

/-- `impl<T: FromUniform> Qrng<T>::gen`: `let [x] = self.state.gen();
T::from_uniform(*x)`; the pair is the produced value and the post-call
state.  `f` is the `T::from_uniform` of the requested scalar type. -/
def scalarQrng.gen {α : Type} (f : ℚ → α) (ps : List ℚ) : α × List ℚ :=
  (f ((State.gen 1 ps).getD 0 0), State.gen 1 ps)

/-- `Qrng::<(T,)>::gen` from the `define_from_uniform` macro at arity 1:
the same step, with the result wrapped in the 1-tuple. -/
def tuple1Qrng.gen {α : Type} (f : ℚ → α) (ps : List ℚ) : Tuple1 α × List ℚ :=
  (⟨f ((State.gen 1 ps).getD 0 0)⟩, State.gen 1 ps)

/-- The first `k` outputs of the scalar handle. -/
def scalarQrng.outputs {α : Type} (f : ℚ → α) (ps : List ℚ) (k : ℕ) : List α :=
  (List.range k).map fun j => (scalarQrng.gen f (stateAfter 1 ps j)).1

/-- The first `k` outputs of the 1-tuple handle. -/
def tuple1Qrng.outputs {α : Type} (f : ℚ → α) (ps : List ℚ) (k : ℕ) :
    List (Tuple1 α) :=
  (List.range k).map fun j => (tuple1Qrng.gen f (stateAfter 1 ps j)).1

/-- Legacy crate (`quasirandom/src/lib.rs`) `Qrng::new(seed: u32)`: the
state is the single counter `seed as f64`. -/
def Legacy.Qrng.new (seed : ℕ) : ℚ := seed

/-- Body shared by the legacy `next1`..`next16`: coordinate `i` is
`(self.0 * SEQ[i]).fract()`, then `self.0 += 1.0`; the pair is the output
tuple (as a list) and the updated counter.  The f64 product is rounded
(`fl64`); the counter increment is kept exact because adding 1.0 to an
integral f64 below 2^52 is exact, and every reachable counter (u32 seed
plus call count) is such a value. -/
def Legacy.next (seqs : List ℚ) (c : ℚ) : List ℚ × ℚ :=
  (seqs.map fun a => fract (fl64 (c * a)), c + 1)

/-- The outputs of the first `k` legacy calls, threading the counter. -/
def Legacy.run (seqs : List ℚ) (c : ℚ) : ℕ → List (List ℚ)
  | 0 => []
  | k + 1 => (Legacy.next seqs c).1 :: Legacy.run seqs (Legacy.next seqs c).2 k

/-- Legacy table `SEQ1` (exact binary64 values). -/
def Legacy.SEQ1 : List ℚ := [dy 5566755282872661]

/-- Legacy table `SEQ2` (exact binary64 values). -/
def Legacy.SEQ2 : List ℚ := [dy 6799333552837843, dy 5132665044399074]

/-- Legacy table `SEQ3` (exact binary64 values; its last entry is one ulp
above the corresponding `CONSTANTS` entry). -/
def Legacy.SEQ3 : List ℚ := [dy 7378450052166264, dy 6044223474201120, dy 4951261734889447]


lemma fract_nonneg (x : ℚ) : 0 ≤ fract x := Int.fract_nonneg x

lemma fract_lt_one (x : ℚ) : fract x < 1 := Int.fract_lt_one x

lemma constantsFor_length (n : ℕ) (h1 : 1 ≤ n) (h2 : n ≤ 32) :
    (constantsFor n).length = n := by
  interval_cases n <;> rfl

lemma getD_eq_getElem {l : List ℚ} {i : ℕ} (h : i < l.length) (d : ℚ) :
    l.getD i d = l[i] := by
  rw [List.getD_eq_getElem?_getD, List.getElem?_eq_getElem h, Option.getD_some]

lemma State.gen_mem_bounds {n : ℕ} {ps : List ℚ} {x : ℚ}
    (hx : x ∈ State.gen n ps) : 0 ≤ x ∧ x < 1 := by
  rw [State.gen, List.mem_iff_getElem] at hx
  obtain ⟨i, hi, hx⟩ := hx
  rw [List.getElem_zipWith] at hx
  exact hx ▸ ⟨fract_nonneg _, fract_lt_one _⟩

lemma Qrng.new_mem_bounds {n : ℕ} {s : ℚ} {ps : List ℚ}
    (h : Qrng.new n s = some ps) {x : ℚ} (hx : x ∈ ps) : 0 ≤ x ∧ x < 1 := by
  rw [Qrng.new] at h
  split at h
  · injection h with h
    subst h
    rw [List.mem_map] at hx
    obtain ⟨i, _, rfl⟩ := hx
    exact ⟨fract_nonneg _, fract_lt_one _⟩
  · cases h

lemma Qrng.new_zero (n : ℕ) : Qrng.new n 0 = some (List.replicate n (0 : ℚ)) := by
  rw [Qrng.new, if_pos ⟨le_refl (0 : ℚ), by norm_num⟩]
  have h : (List.range n).map (fun i : ℕ => fract ((0 : ℚ) * i)) =
      List.replicate n 0 := by
    rw [List.eq_replicate_iff]
    refine ⟨by rw [List.length_map, List.length_range], fun b hb => ?_⟩
    rw [List.mem_map] at hb
    obtain ⟨i, _, rfl⟩ := hb
    simp [fract]
  rw [h]

/-- C1: for a generator of dimensionality `N` with `1 ≤ N ≤ 32`, an advance
step (`State::gen`) updates every phase `i < N` to
`fract (phase i + constants_for N i)` and returns the post-update sequence
of `N` values, each of which lies in `[0, 1)`. -/
theorem advance_updates_phases_within_unit_range
    (n : ℕ) (hn1 : 1 ≤ n) (hn32 : n ≤ 32) (ps : List ℚ) (hps : ps.length = n)
    (i : ℕ) (hi : i < n) :
    (State.gen n ps).length = n ∧
    (State.gen n ps).getD i 0 =
      fract (ps.getD i 0 + (constantsFor n).getD i 0) ∧
    0 ≤ (State.gen n ps).getD i 0 ∧ (State.gen n ps).getD i 0 < 1 := by
  have hc := constantsFor_length n hn1 hn32
  have hlen : (State.gen n ps).length = n := by
    rw [State.gen, List.length_zipWith, hps, hc, min_self]
  have hi1 : i < (State.gen n ps).length := by rw [hlen]; exact hi
  have hi2 : i < ps.length := by rw [hps]; exact hi
  have hi3 : i < (constantsFor n).length := by rw [hc]; exact hi
  refine ⟨hlen, ?_, ?_, ?_⟩
  · rw [getD_eq_getElem hi1 0, getD_eq_getElem hi2 0, getD_eq_getElem hi3 0]
    simp [State.gen, List.getElem_zipWith]
  · rw [getD_eq_getElem hi1 0]
    have : State.gen n ps = List.zipWith (fun p c => fract (p + c)) ps
        (constantsFor n) := rfl
    simp only [State.gen, List.getElem_zipWith]
    exact fract_nonneg _
  · rw [getD_eq_getElem hi1 0]
    simp only [State.gen, List.getElem_zipWith]
    exact fract_lt_one _

/-- Witness for C1 at `n = 1`, `ps = [0]`, `i = 0`. -/
theorem advance_updates_phases_within_unit_range_witness :
    (1 : ℕ) ≤ 1 ∧ (1 : ℕ) ≤ 32 ∧ [(0 : ℚ)].length = 1 ∧ (0 : ℕ) < 1 ∧
    ((State.gen 1 [0]).length = 1 ∧
     (State.gen 1 [0]).getD 0 0 =
       fract ([(0 : ℚ)].getD 0 0 + (constantsFor 1).getD 0 0) ∧
     0 ≤ (State.gen 1 [0]).getD 0 0 ∧ (State.gen 1 [0]).getD 0 0 < 1) :=
  ⟨le_refl 1, by norm_num, rfl, Nat.zero_lt_one,
    advance_updates_phases_within_unit_range 1 (le_refl 1) (by norm_num)
      [0] rfl 0 Nat.zero_lt_one⟩

/-- C2: two freshly constructed handles of the same dimensionality seeded
with the same seed hold identical phase states and produce identical
`k`-length output sequences; generation is a pure function of the stored
state, with no external entropy. -/
theorem determinism (n : ℕ) (s : ℚ) (k : ℕ) (h1 h2 : List ℚ)
    (e1 : Qrng.new n s = some h1) (e2 : Qrng.new n s = some h2) :
    h1 = h2 ∧ Qrng.run n h1 k = Qrng.run n h2 k ∧
    stateAfter n h1 k = stateAfter n h2 k := by
  rw [e1] at e2
  injection e2 with e2
  exact ⟨e2, by rw [e2], by rw [e2]⟩

/-- Witness for C2 at `n = 1`, `s = 0`, `k = 3`. -/
theorem determinism_witness :
    Qrng.new 1 0 = some [(0 : ℚ)] ∧ Qrng.run 1 [0] 3 = Qrng.run 1 [0] 3 := by
  have hw : Qrng.new 1 0 = some [(0 : ℚ)] := by rw [Qrng.new_zero]; rfl
  exact ⟨hw, (determinism 1 0 3 [0] [0] hw hw).2.1⟩

lemma Qrng.run_mem_gen {n k : ℕ} {ps out : List ℚ}
    (h : out ∈ Qrng.run n ps k) : ∃ qs, out = State.gen n qs := by
  induction k generalizing ps with
  | zero => rw [Qrng.run] at h; cases h
  | succ k ih =>
      rw [Qrng.run] at h
      rcases List.mem_cons.mp h with h | h
      · exact ⟨ps, h⟩
      · exact ih h

/-- C3: every raw coordinate returned by an advance step lies in `[0, 1)`,
and every phase accumulator lies in `[0, 1)` after construction and after
any number of advance steps. -/
theorem range_invariant (n : ℕ) (s : ℚ) (ps : List ℚ)
    (h : Qrng.new n s = some ps) (k : ℕ) :
    (∀ x ∈ stateAfter n ps k, 0 ≤ x ∧ x < 1) ∧
    ∀ out ∈ Qrng.run n ps k, ∀ x ∈ out, 0 ≤ x ∧ x < 1 := by
  constructor
  · intro x hx
    cases k with
    | zero =>
        simp only [stateAfter, Function.iterate_zero, id_eq] at hx
        exact Qrng.new_mem_bounds h hx
    | succ k =>
        rw [stateAfter, Function.iterate_succ_apply'] at hx
        exact State.gen_mem_bounds hx
  · intro out hout x hx
    obtain ⟨qs, rfl⟩ := Qrng.run_mem_gen hout
    exact State.gen_mem_bounds hx

/-- Witness for C3 at `n = 1`, `s = 0`, `k = 2`. -/
theorem range_invariant_witness :
    Qrng.new 1 0 = some [(0 : ℚ)] ∧
    ∀ x ∈ stateAfter 1 [0] 2, 0 ≤ x ∧ x < 1 := by
  have hw : Qrng.new 1 0 = some [(0 : ℚ)] := by rw [Qrng.new_zero]; rfl
  exact ⟨hw, (range_invariant 1 0 [0] hw 2).1⟩

/-- C4: constructing a handle with a seed outside `[0, 1)` fails the
construction-time asserts (modelled as `none`); a successful construction
implies the seed was in range, and the stored phases are computed from the
seed exactly as supplied — never clamped or wrapped. -/
theorem out_of_range_seed_rejected (n : ℕ) (s : ℚ) :
    ((s < 0 ∨ 1 ≤ s) → Qrng.new n s = none) ∧
    ∀ ps, Qrng.new n s = some ps →
      (0 ≤ s ∧ s < 1) ∧
      ps = (List.range n).map fun i : ℕ => fract (s * i) := by
  constructor
  · intro h
    rw [Qrng.new, if_neg]
    rintro ⟨h0, h1⟩
    rcases h with h | h
    · exact absurd h0 (not_le.mpr h)
    · exact absurd h1 (not_lt.mpr h)
  · intro ps h
    rw [Qrng.new] at h
    by_cases hc : 0 ≤ s ∧ s < 1
    · rw [if_pos hc] at h
      injection h with h
      exact ⟨hc, h.symm⟩
    · rw [if_neg hc] at h
      cases h

/-- Witness for C4 at `n = 2`, `s = 3/2`. -/
theorem out_of_range_seed_rejected_witness :
    ((3 / 2 : ℚ) < 0 ∨ 1 ≤ (3 / 2 : ℚ)) ∧ Qrng.new 2 (3 / 2) = none :=
  ⟨Or.inr (by norm_num),
    (out_of_range_seed_rejected 2 (3 / 2)).1 (Or.inr (by norm_num))⟩

/-- C5: construction with a seed `s ∈ [0, 1)` initializes
`phase i = fract (s * i)` for every `i < N`; in particular `phase 0 = 0`
before the first advance, for every seed. -/
theorem seeding_rule (n : ℕ) (s : ℚ) (h0 : 0 ≤ s) (h1 : s < 1) :
    ∃ ps, Qrng.new n s = some ps ∧ ps.length = n ∧
      (∀ i, i < n → ps.getD i 0 = fract (s * i)) ∧
      (1 ≤ n → ps.getD 0 0 = 0) := by
  refine ⟨(List.range n).map fun i : ℕ => fract (s * i),
    by rw [Qrng.new, if_pos ⟨h0, h1⟩], by rw [List.length_map, List.length_range],
    ?_, ?_⟩
  · intro i hi
    have hil : i < ((List.range n).map fun i : ℕ => fract (s * i)).length := by
      rw [List.length_map, List.length_range]; exact hi
    rw [getD_eq_getElem hil 0]
    simp
  · intro hn
    have h0l : 0 < ((List.range n).map fun i : ℕ => fract (s * i)).length := by
      rw [List.length_map, List.length_range]; exact hn
    rw [getD_eq_getElem h0l 0]
    simp [fract]

/-- Witness for C5 at `n = 2`, `s = 1/2`. -/
theorem seeding_rule_witness :
    0 ≤ (1 / 2 : ℚ) ∧ (1 / 2 : ℚ) < 1 ∧
    ∃ ps, Qrng.new 2 (1 / 2) = some ps ∧ ps.length = 2 ∧
      (∀ i, i < 2 → ps.getD i 0 = fract (1 / 2 * i)) ∧
      (1 ≤ 2 → ps.getD 0 0 = 0) :=
  ⟨by norm_num, by norm_num, seeding_rule 2 (1 / 2) (by norm_num) (by norm_num)⟩

/-- C6: for every coordinate `u ∈ [0, 1)` and every payload mapping `f`
(the `T::from_uniform` of an arbitrary payload type), the `Option<T>`
mapping yields `some (f (u * 2))` when `u < 0.5` and yields `none`
(no payload consumed) whenever `u ≥ 0.5`, regardless of the payload type. -/
theorem option_mapping {α : Type} (f : ℚ → α) (u : ℚ) (h0 : 0 ≤ u)
    (h1 : u < 1) :
    (u < 1 / 2 → optionFromUniform f u = some (f (u * 2))) ∧
    (1 / 2 ≤ u → optionFromUniform f u = none) := by
  constructor
  · intro h
    rw [optionFromUniform, if_pos h]
  · intro h
    rw [optionFromUniform, if_neg (not_lt.mpr h)]

/-- Witness for C6 with payload mapping `f64::from_uniform` at `u = 3/4`. -/
theorem option_mapping_witness :
    0 ≤ (3 / 4 : ℚ) ∧ (3 / 4 : ℚ) < 1 ∧ 1 / 2 ≤ (3 / 4 : ℚ) ∧
    optionFromUniform f64.fromUniform (3 / 4) = none :=
  ⟨by norm_num, by norm_num, by norm_num,
    (option_mapping f64.fromUniform (3 / 4) (by norm_num) (by norm_num)).2
      (by norm_num)⟩

lemma unsignedFromUniform_eval (M maxv : ℕ) (hM : M ≤ maxv + 1) (u : ℚ)
    (h0 : 0 ≤ u) (h1 : u < 1) :
    unsignedFromUniform (M : ℚ) maxv u = ⌊(M : ℚ) * u⌋.toNat ∧
    ⌊(M : ℚ) * u⌋.toNat ≤ maxv := by
  have hfloor : ⌊(M : ℚ) * u⌋.toNat ≤ maxv := by
    rcases Nat.eq_zero_or_pos M with hM0 | hM0
    · subst hM0
      simp
    · have hlt : (M : ℚ) * u < (M : ℚ) := by
        have : (0 : ℚ) < M := by exact_mod_cast hM0
        calc (M : ℚ) * u < (M : ℚ) * 1 := by
              exact mul_lt_mul_of_pos_left h1 this
          _ = (M : ℚ) := mul_one _
      have : ⌊(M : ℚ) * u⌋ < (M : ℤ) := Int.floor_lt.mpr (by exact_mod_cast hlt)
      have hle : ⌊(M : ℚ) * u⌋ ≤ (M : ℤ) - 1 := by omega
      have : ⌊(M : ℚ) * u⌋.toNat ≤ M - 1 := by omega
      omega
  exact ⟨min_eq_left hfloor, hfloor⟩

/-- C7: for each unsigned width (u8, u16, u32, u64, u128, usize),
`from_uniform 0 = 0`, and for every coordinate `u ∈ [0, 1)` — the largest
double below 1 included — the result is the truncation of `MAX_f64 * u`
(the saturating cast never engages) and never exceeds the type's maximum. -/
theorem unsigned_mapping (u : ℚ) (h0 : 0 ≤ u) (h1 : u < 1) :
    (u8.fromUniform 0 = 0 ∧ u8.fromUniform u ≤ 255) ∧
    (u16.fromUniform 0 = 0 ∧ u16.fromUniform u ≤ 65535) ∧
    (u32.fromUniform 0 = 0 ∧ u32.fromUniform u ≤ 4294967295) ∧
    (u64.fromUniform 0 = 0 ∧ u64.fromUniform u ≤ 2 ^ 64 - 1) ∧
    (u128.fromUniform 0 = 0 ∧ u128.fromUniform u ≤ 2 ^ 128 - 1) ∧
    (usize.fromUniform 0 = 0 ∧ usize.fromUniform u ≤ 2 ^ 64 - 1) := by
  have hz : ∀ maxf : ℚ, ∀ maxv : ℕ, unsignedFromUniform maxf maxv 0 = 0 := by
    intro maxf maxv
    simp [unsignedFromUniform]
  have h8 := unsignedFromUniform_eval 255 255 (by norm_num) u h0 h1
  have h16 := unsignedFromUniform_eval 65535 65535 (by norm_num) u h0 h1
  have h32 := unsignedFromUniform_eval 4294967295 4294967295 (by norm_num) u h0 h1
  have h64 := unsignedFromUniform_eval (2 ^ 64) (2 ^ 64 - 1) (by norm_num) u h0 h1
  have h128 := unsignedFromUniform_eval (2 ^ 128) (2 ^ 128 - 1) (by norm_num) u h0 h1
  refine ⟨⟨hz _ _, ?_⟩, ⟨hz _ _, ?_⟩, ⟨hz _ _, ?_⟩, ⟨hz _ _, ?_⟩,
    ⟨hz _ _, ?_⟩, ⟨hz _ _, ?_⟩⟩
  · rw [u8.fromUniform]
    exact_mod_cast h8.1 ▸ h8.2
  · rw [u16.fromUniform]
    exact_mod_cast h16.1 ▸ h16.2
  · rw [u32.fromUniform]
    exact_mod_cast h32.1 ▸ h32.2
  · rw [u64.fromUniform]
    exact_mod_cast h64.1 ▸ h64.2
  · rw [u128.fromUniform]
    exact_mod_cast h128.1 ▸ h128.2
  · rw [usize.fromUniform]
    exact_mod_cast h64.1 ▸ h64.2

/-- Witness for C7 at `u = (2^53 - 1) / 2^53`, the largest double below 1. -/
theorem unsigned_mapping_witness :
    0 ≤ ((2 ^ 53 - 1) / 2 ^ 53 : ℚ) ∧ ((2 ^ 53 - 1) / 2 ^ 53 : ℚ) < 1 ∧
    u8.fromUniform ((2 ^ 53 - 1) / 2 ^ 53) ≤ 255 ∧
    u64.fromUniform ((2 ^ 53 - 1) / 2 ^ 53) ≤ 2 ^ 64 - 1 :=
  ⟨by norm_num, by norm_num,
    ((unsigned_mapping ((2 ^ 53 - 1) / 2 ^ 53) (by norm_num)
      (by norm_num)).1).2,
    ((unsigned_mapping ((2 ^ 53 - 1) / 2 ^ 53) (by norm_num)
      (by norm_num)).2.2.2.1).2⟩

lemma log2_eq (q : ℚ) (n : ℤ) (h0 : 0 < q) (h1 : (2 : ℚ) ^ n ≤ q)
    (h2 : q < (2 : ℚ) ^ (n + 1)) : Int.log 2 q = n := by
  have hcast : ((2 : ℕ) : ℚ) = (2 : ℚ) := by norm_num
  have hge : n ≤ Int.log 2 q := by
    rw [← Int.zpow_le_iff_le_log one_lt_two h0, hcast]
    exact h1
  have hle : Int.log 2 q ≤ n := by
    by_contra hcon
    push_neg at hcon
    have hs : n + 1 ≤ Int.log 2 q := hcon
    have hb := (Int.zpow_le_iff_le_log one_lt_two h0).mpr hs
    rw [hcast] at hb
    exact absurd hb (not_le.mpr h2)
  omega

lemma rne_intCast (k : ℤ) : rne (k : ℚ) = k := by
  rw [rne, Int.fract_intCast, if_pos (by norm_num), Int.floor_intCast]

lemma fract_eq_self_of {q : ℚ} (h0 : 0 ≤ q) (h1 : q < 1) : fract q = q :=
  Int.fract_eq_self.mpr ⟨h0, h1⟩

lemma fract_sub_one {q : ℚ} (h0 : 1 ≤ q) (h1 : q < 2) : fract q = q - 1 := by
  have h2 : Int.fract (q - ((1 : ℤ) : ℚ)) = Int.fract q := Int.fract_sub_int q 1
  have h3 : q - ((1 : ℤ) : ℚ) = q - 1 := by push_cast; ring
  rw [fract, ← h2, h3]
  exact Int.fract_eq_self.mpr ⟨by linarith, by linarith⟩

lemma dy_add (p q : ℕ) : dy p + dy q = dy (p + q) := by
  simp only [dy]
  push_cast
  ring

lemma dy_nonneg (m : ℕ) : 0 ≤ dy m := by
  rw [dy]
  positivity

lemma dy_lt_one {m : ℕ} (h : m < 2 ^ 53) : dy m < 1 := by
  rw [dy, div_lt_one (by norm_num)]
  exact_mod_cast h

lemma fract_dy {m : ℕ} (h : m < 2 ^ 53) : fract (dy m) = dy m :=
  fract_eq_self_of (dy_nonneg m) (dy_lt_one h)

lemma fl64_dy (m : ℕ) (h1 : 2 ^ 52 ≤ m) (h2 : m < 2 ^ 53) :
    fl64 (dy m) = dy m := by
  have hm : (2 ^ 52 : ℚ) ≤ (m : ℚ) := by exact_mod_cast h1
  have hpos : (0 : ℚ) < dy m := by
    rw [dy]
    have hm0 : (0 : ℚ) < (m : ℚ) := by linarith
    positivity
  rw [fl64, if_neg (ne_of_gt hpos), abs_of_pos hpos]
  have hlog : Int.log 2 (dy m) = -1 := by
    apply log2_eq _ _ hpos
    · rw [show ((2 : ℚ) ^ (-1 : ℤ)) = 1 / 2 by norm_num, dy,
        div_le_div_iff (by norm_num) (by norm_num)]
      linarith
    · rw [show ((-1 : ℤ) + 1) = 0 by norm_num, zpow_zero]
      exact dy_lt_one h2
  rw [hlog]
  rw [show ((52 : ℤ) - -1) = 53 by norm_num,
    show ((-1 : ℤ) - 52) = -53 by norm_num]
  have hscale : dy m * (2 : ℚ) ^ (53 : ℤ) = ((m : ℤ) : ℚ) := by
    rw [dy, show ((2 : ℚ) ^ (53 : ℤ)) = 2 ^ 53 by norm_num]
    push_cast
    field_simp
  rw [hscale, rne_intCast]
  rw [dy, show ((2 : ℚ) ^ (-53 : ℤ)) = (2 ^ 53 : ℚ)⁻¹ by norm_num]
  push_cast
  ring

lemma fl64_half52 (m : ℕ) (h1 : 2 ^ 52 ≤ m) (h2 : m < 2 ^ 53) :
    fl64 ((m : ℚ) / 2 ^ 52) = (m : ℚ) / 2 ^ 52 := by
  have hm : (2 ^ 52 : ℚ) ≤ (m : ℚ) := by exact_mod_cast h1
  have hm2 : (m : ℚ) < 2 ^ 53 := by exact_mod_cast h2
  have hpos : (0 : ℚ) < (m : ℚ) / 2 ^ 52 := by
    have hm0 : (0 : ℚ) < (m : ℚ) := by linarith
    positivity
  rw [fl64, if_neg (ne_of_gt hpos), abs_of_pos hpos]
  have hlog : Int.log 2 ((m : ℚ) / 2 ^ 52) = 0 := by
    apply log2_eq _ _ hpos
    · rw [zpow_zero, le_div_iff (by norm_num)]
      linarith
    · rw [show ((0 : ℤ) + 1) = 1 by norm_num, zpow_one,
        div_lt_iff (by norm_num)]
      linarith
  rw [hlog]
  rw [show ((52 : ℤ) - 0) = 52 by norm_num,
    show ((0 : ℤ) - 52) = -52 by norm_num]
  have hscale : (m : ℚ) / 2 ^ 52 * (2 : ℚ) ^ (52 : ℤ) = ((m : ℤ) : ℚ) := by
    rw [show ((2 : ℚ) ^ (52 : ℤ)) = 2 ^ 52 by norm_num]
    push_cast
    field_simp
  rw [hscale, rne_intCast]
  rw [show ((2 : ℚ) ^ (-52 : ℤ)) = (2 ^ 52 : ℚ)⁻¹ by norm_num]
  push_cast
  ring

lemma fl64_tie_three_alpha :
    fl64 (dy 16700265848617983) = (8350132924308992 : ℚ) / 2 ^ 52 := by
  have hval : dy 16700265848617983 = (16700265848617983 : ℚ) / 2 ^ 53 := by
    rw [dy]
    norm_num
  rw [hval, fl64, if_neg (by norm_num), abs_of_pos (by norm_num)]
  have hlog : Int.log 2 ((16700265848617983 : ℚ) / 2 ^ 53) = 0 := by
    apply log2_eq _ _ (by norm_num)
    · rw [zpow_zero, le_div_iff (by norm_num)]
      norm_num
    · rw [show ((0 : ℤ) + 1) = 1 by norm_num, zpow_one,
        div_lt_iff (by norm_num)]
      norm_num
  rw [hlog]
  rw [show ((52 : ℤ) - 0) = 52 by norm_num,
    show ((0 : ℤ) - 52) = -52 by norm_num]
  have hscale : (16700265848617983 : ℚ) / 2 ^ 53 * (2 : ℚ) ^ (52 : ℤ) =
      16700265848617983 / 2 := by
    rw [show ((2 : ℚ) ^ (52 : ℤ)) = 2 ^ 52 by norm_num]
    norm_num
  rw [hscale]
  have hfl : ⌊(16700265848617983 : ℚ) / 2⌋ = 8350132924308991 := by norm_num
  have hfr : Int.fract ((16700265848617983 : ℚ) / 2) = 1 / 2 := by
    rw [Int.fract, hfl]
    norm_num
  have hrne : rne ((16700265848617983 : ℚ) / 2) = 8350132924308992 := by
    rw [rne, hfr, if_neg (by norm_num), if_neg (by norm_num), hfl,
      if_neg (by norm_num)]
    norm_num
  rw [hrne]
  rw [show ((2 : ℚ) ^ (-52 : ℤ)) = (2 ^ 52 : ℚ)⁻¹ by norm_num]
  push_cast
  ring

lemma stateAfterIEEE_succ (n : ℕ) (ps : List ℚ) (k : ℕ) :
    stateAfterIEEE n ps (k + 1) = State.genIEEE n (stateAfterIEEE n ps k) := by
  rw [stateAfterIEEE, stateAfterIEEE, Function.iterate_succ_apply']

lemma Legacy.run_getD (seqs : List ℚ) :
    ∀ (k : ℕ) (c : ℚ) (j : ℕ), j < k →
      (Legacy.run seqs c k).getD j [] =
        seqs.map fun a => fract (fl64 ((c + j) * a)) := by
  intro k
  induction k with
  | zero => exact fun c j hj => absurd hj (Nat.not_lt_zero j)
  | succ k ih =>
      intro c j hj
      cases j with
      | zero =>
          rw [Legacy.run, List.getD_cons_zero]
          simp [Legacy.next]
      | succ j =>
          rw [Legacy.run, List.getD_cons_succ,
            ih (Legacy.next seqs c).2 j (Nat.lt_of_succ_lt_succ hj)]
          have harg : (Legacy.next seqs c).2 + (j : ℚ) =
              c + ((j + 1 : ℕ) : ℚ) := by
            simp only [Legacy.next]
            push_cast
            ring
          rw [harg]

lemma coreIEEE_d1_one :
    stateAfterIEEE 1 (List.replicate 1 0) 1 = [dy 5566755282872661] := by
  have h1 : stateAfterIEEE 1 (List.replicate 1 0) 1 =
      State.genIEEE 1 (stateAfterIEEE 1 (List.replicate 1 0) 0) :=
    stateAfterIEEE_succ 1 (List.replicate 1 0) 0
  rw [h1]
  show [fract (fl64 ((0 : ℚ) + dy 5566755282872661))] = _
  rw [zero_add, fl64_dy 5566755282872661 (by norm_num) (by norm_num),
    fract_dy (by norm_num)]

lemma coreIEEE_d1_two :
    stateAfterIEEE 1 (List.replicate 1 0) 2 = [dy 2126311311004330] := by
  have h2 : stateAfterIEEE 1 (List.replicate 1 0) 2 =
      State.genIEEE 1 (stateAfterIEEE 1 (List.replicate 1 0) 1) :=
    stateAfterIEEE_succ 1 (List.replicate 1 0) 1
  rw [h2, coreIEEE_d1_one]
  show [fract (fl64 (dy 5566755282872661 + dy 5566755282872661))] = _
  rw [dy_add]
  have hv : dy (5566755282872661 + 5566755282872661) =
      ((5566755282872661 : ℕ) : ℚ) / 2 ^ 52 := by
    rw [dy]
    push_cast
    norm_num
  rw [hv, fl64_half52 5566755282872661 (by norm_num) (by norm_num),
    fract_sub_one (by push_cast; norm_num) (by push_cast; norm_num), dy]
  push_cast
  norm_num

lemma coreIEEE_d1_three :
    stateAfterIEEE 1 (List.replicate 1 0) 3 = [dy 7693066593876991] := by
  have h3 : stateAfterIEEE 1 (List.replicate 1 0) 3 =
      State.genIEEE 1 (stateAfterIEEE 1 (List.replicate 1 0) 2) :=
    stateAfterIEEE_succ 1 (List.replicate 1 0) 2
  rw [h3, coreIEEE_d1_two]
  show [fract (fl64 (dy 2126311311004330 + dy 5566755282872661))] = _
  rw [dy_add,
    show (2126311311004330 + 5566755282872661 : ℕ) = 7693066593876991
      by norm_num,
    fl64_dy 7693066593876991 (by norm_num) (by norm_num),
    fract_dy (by norm_num)]

lemma coreIEEE_d2_one :
    stateAfterIEEE 2 (List.replicate 2 0) 1 =
      [dy 6799333552837843, dy 5132665044399074] := by
  have h1 : stateAfterIEEE 2 (List.replicate 2 0) 1 =
      State.genIEEE 2 (stateAfterIEEE 2 (List.replicate 2 0) 0) :=
    stateAfterIEEE_succ 2 (List.replicate 2 0) 0
  rw [h1]
  show [fract (fl64 ((0 : ℚ) + dy 6799333552837843)),
        fract (fl64 ((0 : ℚ) + dy 5132665044399074))] = _
  rw [zero_add, zero_add,
    fl64_dy 6799333552837843 (by norm_num) (by norm_num),
    fl64_dy 5132665044399074 (by norm_num) (by norm_num),
    fract_dy (by norm_num), fract_dy (by norm_num)]

lemma coreIEEE_d2_two :
    stateAfterIEEE 2 (List.replicate 2 0) 2 =
      [dy 4591467850934694, dy 1258130834057156] := by
  have h2 : stateAfterIEEE 2 (List.replicate 2 0) 2 =
      State.genIEEE 2 (stateAfterIEEE 2 (List.replicate 2 0) 1) :=
    stateAfterIEEE_succ 2 (List.replicate 2 0) 1
  rw [h2, coreIEEE_d2_one]
  show [fract (fl64 (dy 6799333552837843 + dy 6799333552837843)),
        fract (fl64 (dy 5132665044399074 + dy 5132665044399074))] = _
  rw [dy_add, dy_add]
  have hv0 : dy (6799333552837843 + 6799333552837843) =
      ((6799333552837843 : ℕ) : ℚ) / 2 ^ 52 := by
    rw [dy]
    push_cast
    norm_num
  have hv1 : dy (5132665044399074 + 5132665044399074) =
      ((5132665044399074 : ℕ) : ℚ) / 2 ^ 52 := by
    rw [dy]
    push_cast
    norm_num
  rw [hv0, hv1, fl64_half52 6799333552837843 (by norm_num) (by norm_num),
    fl64_half52 5132665044399074 (by norm_num) (by norm_num),
    fract_sub_one (by push_cast; norm_num) (by push_cast; norm_num),
    fract_sub_one (by push_cast; norm_num) (by push_cast; norm_num), dy, dy]
  push_cast
  norm_num

lemma legacyIEEE_d1_call0 :
    (Legacy.run Legacy.SEQ1 (Legacy.Qrng.new 1) 3).getD 0 [] =
      [dy 5566755282872661] := by
  rw [Legacy.run_getD _ 3 _ 0 (by norm_num)]
  simp only [Legacy.SEQ1, List.map_cons, List.map_nil]
  have hc : (Legacy.Qrng.new 1 + ((0 : ℕ) : ℚ)) = 1 := by
    simp [Legacy.Qrng.new]
  rw [hc, one_mul, fl64_dy 5566755282872661 (by norm_num) (by norm_num),
    fract_dy (by norm_num)]

lemma legacyIEEE_d1_call1 :
    (Legacy.run Legacy.SEQ1 (Legacy.Qrng.new 1) 3).getD 1 [] =
      [dy 2126311311004330] := by
  rw [Legacy.run_getD _ 3 _ 1 (by norm_num)]
  simp only [Legacy.SEQ1, List.map_cons, List.map_nil]
  have hc : (Legacy.Qrng.new 1 + ((1 : ℕ) : ℚ)) * dy 5566755282872661 =
      ((5566755282872661 : ℕ) : ℚ) / 2 ^ 52 := by
    simp only [Legacy.Qrng.new, dy]
    push_cast
    norm_num
  rw [hc, fl64_half52 5566755282872661 (by norm_num) (by norm_num),
    fract_sub_one (by push_cast; norm_num) (by push_cast; norm_num), dy]
  push_cast
  norm_num

lemma legacyIEEE_d1_call2 :
    (Legacy.run Legacy.SEQ1 (Legacy.Qrng.new 1) 3).getD 2 [] =
      [dy 7693066593876992] := by
  rw [Legacy.run_getD _ 3 _ 2 (by norm_num)]
  simp only [Legacy.SEQ1, List.map_cons, List.map_nil]
  have hc : (Legacy.Qrng.new 1 + ((2 : ℕ) : ℚ)) * dy 5566755282872661 =
      dy 16700265848617983 := by
    simp only [Legacy.Qrng.new, dy]
    push_cast
    norm_num
  rw [hc, fl64_tie_three_alpha,
    fract_sub_one (by norm_num) (by norm_num), dy]
  norm_num

lemma legacyIEEE_d2_call0 :
    (Legacy.run Legacy.SEQ2 (Legacy.Qrng.new 1) 2).getD 0 [] =
      [dy 6799333552837843, dy 5132665044399074] := by
  rw [Legacy.run_getD _ 2 _ 0 (by norm_num)]
  simp only [Legacy.SEQ2, List.map_cons, List.map_nil]
  have hc : (Legacy.Qrng.new 1 + ((0 : ℕ) : ℚ)) = 1 := by
    simp [Legacy.Qrng.new]
  rw [hc, one_mul, one_mul,
    fl64_dy 6799333552837843 (by norm_num) (by norm_num),
    fl64_dy 5132665044399074 (by norm_num) (by norm_num),
    fract_dy (by norm_num), fract_dy (by norm_num)]

lemma legacyIEEE_d2_call1 :
    (Legacy.run Legacy.SEQ2 (Legacy.Qrng.new 1) 2).getD 1 [] =
      [dy 4591467850934694, dy 1258130834057156] := by
  rw [Legacy.run_getD _ 2 _ 1 (by norm_num)]
  simp only [Legacy.SEQ2, List.map_cons, List.map_nil]
  have hc0 : (Legacy.Qrng.new 1 + ((1 : ℕ) : ℚ)) * dy 6799333552837843 =
      ((6799333552837843 : ℕ) : ℚ) / 2 ^ 52 := by
    simp only [Legacy.Qrng.new, dy]
    push_cast
    norm_num
  have hc1 : (Legacy.Qrng.new 1 + ((1 : ℕ) : ℚ)) * dy 5132665044399074 =
      ((5132665044399074 : ℕ) : ℚ) / 2 ^ 52 := by
    simp only [Legacy.Qrng.new, dy]
    push_cast
    norm_num
  rw [hc0, hc1, fl64_half52 6799333552837843 (by norm_num) (by norm_num),
    fl64_half52 5132665044399074 (by norm_num) (by norm_num),
    fract_sub_one (by push_cast; norm_num) (by push_cast; norm_num),
    fract_sub_one (by push_cast; norm_num) (by push_cast; norm_num), dy, dy]
  push_cast
  norm_num

lemma legacyIEEE_d3_call0 :
    (Legacy.run Legacy.SEQ3 (Legacy.Qrng.new 1) 1).getD 0 [] =
      [dy 7378450052166264, dy 6044223474201120, dy 4951261734889447] := by
  rw [Legacy.run_getD _ 1 _ 0 (by norm_num)]
  simp only [Legacy.SEQ3, List.map_cons, List.map_nil]
  have hc : (Legacy.Qrng.new 1 + ((0 : ℕ) : ℚ)) = 1 := by
    simp [Legacy.Qrng.new]
  rw [hc, one_mul, one_mul, one_mul,
    fl64_dy 7378450052166264 (by norm_num) (by norm_num),
    fl64_dy 6044223474201120 (by norm_num) (by norm_num),
    fl64_dy 4951261734889447 (by norm_num) (by norm_num),
    fract_dy (by norm_num), fract_dy (by norm_num), fract_dy (by norm_num)]

lemma coreIEEE_d3_one :
    stateAfterIEEE 3 (List.replicate 3 0) 1 =
      [dy 7378450052166264, dy 6044223474201120, dy 4951261734889446] := by
  have h1 : stateAfterIEEE 3 (List.replicate 3 0) 1 =
      State.genIEEE 3 (stateAfterIEEE 3 (List.replicate 3 0) 0) :=
    stateAfterIEEE_succ 3 (List.replicate 3 0) 0
  rw [h1]
  show [fract (fl64 ((0 : ℚ) + dy 7378450052166264)),
        fract (fl64 ((0 : ℚ) + dy 6044223474201120)),
        fract (fl64 ((0 : ℚ) + dy 4951261734889446))] = _
  rw [zero_add, zero_add, zero_add,
    fl64_dy 7378450052166264 (by norm_num) (by norm_num),
    fl64_dy 6044223474201120 (by norm_num) (by norm_num),
    fl64_dy 4951261734889446 (by norm_num) (by norm_num),
    fract_dy (by norm_num), fract_dy (by norm_num), fract_dy (by norm_num)]

/-- C8 amended (IEEE-rounded model): the legacy fixed-arity surface is an
alternate entry point evaluating the same additive recurrence — for
dimensionalities 1 and 2 its tables are bit-identical to the core's, and
its output at call `j` from integer seed `m` is the closed form
`fract (fl64 ((m + j) * α_i))` of the recurrence the core iterates — and
under the correspondence legacy seed 1 ↔ core seed 0 the outputs agree as
long as every rounded operation involved is exact (the first two outputs
in dimensionalities 1 and 2).  But the raw-coordinate sequences are not
bit-identical: already at dimensionality 1 the third outputs differ by
one ulp, because the legacy path rounds a single product where the core
path rounds each accumulated sum (and at dimensionality 3 the tables
themselves differ by one ulp; see the counterexample). -/
theorem legacy_core_relation_ieee (m j k : ℕ) (hj : j < k) :
    Legacy.SEQ1 = constantsFor 1 ∧
    Legacy.SEQ2 = constantsFor 2 ∧
    (Legacy.run Legacy.SEQ1 (Legacy.Qrng.new m) k).getD j [] =
      Legacy.SEQ1.map (fun a => fract (fl64 ((m + j) * a))) ∧
    (Legacy.run Legacy.SEQ2 (Legacy.Qrng.new m) k).getD j [] =
      Legacy.SEQ2.map (fun a => fract (fl64 ((m + j) * a))) ∧
    (Legacy.run Legacy.SEQ1 (Legacy.Qrng.new 1) 3).getD 0 [] =
      stateAfterIEEE 1 (List.replicate 1 0) 1 ∧
    (Legacy.run Legacy.SEQ1 (Legacy.Qrng.new 1) 3).getD 1 [] =
      stateAfterIEEE 1 (List.replicate 1 0) 2 ∧
    (Legacy.run Legacy.SEQ2 (Legacy.Qrng.new 1) 2).getD 0 [] =
      stateAfterIEEE 2 (List.replicate 2 0) 1 ∧
    (Legacy.run Legacy.SEQ2 (Legacy.Qrng.new 1) 2).getD 1 [] =
      stateAfterIEEE 2 (List.replicate 2 0) 2 ∧
    (Legacy.run Legacy.SEQ1 (Legacy.Qrng.new 1) 3).getD 2 [] ≠
      stateAfterIEEE 1 (List.replicate 1 0) 3 := by
  refine ⟨rfl, rfl, ?_, ?_, ?_, ?_, ?_, ?_, ?_⟩
  · rw [Legacy.run_getD _ k _ j hj]
    apply List.map_congr_left
    intro a _
    have harg : (Legacy.Qrng.new m + (j : ℚ)) * a =
        ((m : ℚ) + (j : ℚ)) * a := by
      simp only [Legacy.Qrng.new]
    rw [harg]
  · rw [Legacy.run_getD _ k _ j hj]
    apply List.map_congr_left
    intro a _
    have harg : (Legacy.Qrng.new m + (j : ℚ)) * a =
        ((m : ℚ) + (j : ℚ)) * a := by
      simp only [Legacy.Qrng.new]
    rw [harg]
  · rw [legacyIEEE_d1_call0, coreIEEE_d1_one]
  · rw [legacyIEEE_d1_call1, coreIEEE_d1_two]
  · rw [legacyIEEE_d2_call0, coreIEEE_d2_one]
  · rw [legacyIEEE_d2_call1, coreIEEE_d2_two]
  · rw [legacyIEEE_d1_call2, coreIEEE_d1_three]
    intro h
    have h0 := congrArg (fun l => l.getD 0 0) h
    simp only [List.getD_cons_zero] at h0
    rw [dy, dy] at h0
    norm_num at h0

/-- Witness for the amended C8 at `m = 1`, `j = 0`, `k = 1`. -/
theorem legacy_core_relation_ieee_witness :
    (0 : ℕ) < 1 ∧
    (Legacy.run Legacy.SEQ1 (Legacy.Qrng.new 1) 1).getD 0 [] =
      Legacy.SEQ1.map
        (fun a => fract (fl64 ((((1 : ℕ) : ℚ) + ((0 : ℕ) : ℚ)) * a))) :=
  ⟨Nat.zero_lt_one,
    (legacy_core_relation_ieee 1 0 1 Nat.zero_lt_one).2.2.1⟩

/-- C8 counterexample (IEEE-rounded model): at dimensionality 3 the legacy
surface does not compute the same raw-coordinate sequence as the core
generator.  Under the seed correspondence that works for dimensionalities
1 and 2 where every operation is exact (legacy integer seed `m` ↔ core
seed 0 offset by `m` steps), the very first legacy dimension-3 output
(seed 1) differs from the corresponding core output in the third
coordinate: `SEQ3[2]` is one ulp above `CONSTANTS[2][2]`. -/
theorem legacy_core_mismatch_dim_three :
    Qrng.new 3 0 = some (List.replicate 3 0) ∧
    (Legacy.run Legacy.SEQ3 (Legacy.Qrng.new 1) 1).getD 0 [] ≠
      stateAfterIEEE 3 (List.replicate 3 0) 1 := by
  refine ⟨Qrng.new_zero 3, ?_⟩
  rw [legacyIEEE_d3_call0, coreIEEE_d3_one]
  intro h
  have h3 := congrArg (fun l => l.getD 2 0) h
  simp only [List.getD_cons_succ, List.getD_cons_zero] at h3
  rw [dy, dy] at h3
  norm_num at h3

/-- C9: a handle constructed for a scalar `T` behaves identically to a
handle constructed for the 1-tuple `(T,)`: construction delegates to the
1-tuple constructor and owns the same one-dimensional phase state, and the
scalar output stream equals the field-wise projection of the 1-tuple output
stream, with identical post-call states. -/
theorem scalar_matches_tuple1 {α : Type} (f : ℚ → α) (s : ℚ) (ps : List ℚ)
    (h : scalarQrng.new s = some ps) (k : ℕ) :
    Qrng.new 1 s = some ps ∧
    scalarQrng.outputs f ps k = (tuple1Qrng.outputs f ps k).map Tuple1.fst ∧
    (scalarQrng.gen f (stateAfter 1 ps k)).2 =
      (tuple1Qrng.gen f (stateAfter 1 ps k)).2 := by
  refine ⟨h, ?_, rfl⟩
  rw [tuple1Qrng.outputs, scalarQrng.outputs, List.map_map]
  rfl

/-- Witness for C9 with `f64::from_uniform`, `s = 0`, `k = 1`. -/
theorem scalar_matches_tuple1_witness :
    scalarQrng.new 0 = some [(0 : ℚ)] ∧
    scalarQrng.outputs f64.fromUniform [0] 1 =
      (tuple1Qrng.outputs f64.fromUniform [0] 1).map Tuple1.fst := by
  have hw : scalarQrng.new 0 = some [(0 : ℚ)] := by
    rw [scalarQrng.new, Qrng.new_zero]
    rfl
  exact ⟨hw, (scalar_matches_tuple1 f64.fromUniform 0 [0] hw 1).2.1⟩

lemma log_two_largest_below_one :
    Int.log 2 ((2 ^ 53 - 1) / 2 ^ 53 : ℚ) = -1 := by
  have h1 : ((2 ^ 53 - 1) / 2 ^ 53 : ℚ) ≤ 1 := by norm_num
  rw [Int.log_of_right_le_one 2 h1]
  have hinv : ((2 ^ 53 - 1) / 2 ^ 53 : ℚ)⁻¹ = 2 ^ 53 / (2 ^ 53 - 1) :=
    inv_div _ _
  have hceil : ⌈((2 ^ 53 : ℚ) / (2 ^ 53 - 1))⌉₊ = 2 := by
    rw [Nat.ceil_eq_iff (by norm_num)]
    constructor
    · rw [lt_div_iff (by norm_num)]
      norm_num
    · rw [div_le_iff (by norm_num)]
      norm_num
  rw [hinv, hceil, Nat.clog_eq_one (le_refl 2) (le_refl 2)]
  norm_num

lemma roundF32_largest_below_one :
    roundF32 ((2 ^ 53 - 1) / 2 ^ 53) = 1 := by
  rw [roundF32, if_neg (by norm_num)]
  have habs : |((2 ^ 53 - 1) / 2 ^ 53 : ℚ)| = (2 ^ 53 - 1) / 2 ^ 53 :=
    abs_of_pos (by norm_num)
  rw [habs, log_two_largest_below_one]
  have h24 : ((23 : ℤ) - -1) = (24 : ℤ) := by norm_num
  have h24b : ((-1 : ℤ) - 23) = (-24 : ℤ) := by norm_num
  rw [h24, h24b]
  have hround : round (((2 ^ 53 - 1) / 2 ^ 53 : ℚ) * (2 : ℚ) ^ (24 : ℤ)) =
      2 ^ 24 := by
    rw [round_eq]
    have hx : ((2 ^ 53 - 1) / 2 ^ 53 : ℚ) * (2 : ℚ) ^ (24 : ℤ) + 1 / 2 =
        (2 ^ 54 + 2 ^ 29 - 2) / 2 ^ 30 := by
      norm_num
    rw [hx, Int.floor_eq_iff]
    norm_num
  rw [hround]
  norm_num

/-- C10: there is a coordinate `u ∈ [0, 1)` — the largest double below 1 —
on which the f32 mapping (`uniform_value as f32`) rounds up to exactly 1.0;
the 32-bit mapping therefore does not preserve the half-open range `[0, 1)`
that the 64-bit identity mapping preserves. -/
theorem f32_mapping_escapes_unit_range :
    ∃ u : ℚ, 0 ≤ u ∧ u < 1 ∧ f32.fromUniform u = 1 ∧
      f64.fromUniform u = u ∧ f64.fromUniform u < 1 := by
  refine ⟨(2 ^ 53 - 1) / 2 ^ 53, by norm_num, by norm_num, ?_, rfl,
    by norm_num [f64.fromUniform]⟩
  rw [f32.fromUniform]
  exact roundF32_largest_below_one
